import Mathlib

/-!
# Cointracker-TransactionAnalyser: formal model and verification

A shallow embedding of the core pipeline of the repository:

* `src/utils.py` — `convert_wei_to_eth`, `convert_timestamp`, `calculate_gas_fee`
  (built on Python `decimal.Decimal` with the default context: 28 significant
  digits of precision, `ROUND_HALF_EVEN`);
* `src/analyzer/transaction_analyzer.py` — `EthereumTransactionAnalyzer` with its
  private copies `_convert_wei_to_eth`, `_convert_timestamp`, `_calculate_gas_fee`,
  the record normalizer `_process_transaction` and the orchestrator `analyze`;
* `src/external_data_providers/etherscan_api_client.py` — the pagination loop of
  `_get_transactions`.

Strings are modelled as Lean `String`, Python dicts as association lists,
Python `decimal.Decimal` finite values as a sign flag, a coefficient and an
exponent (value = ± coeff · 10^exp), exactly as in `Decimal.as_tuple()`.
-/

/-! ## Digit-string helpers (kernel-evaluable, fuel-based recursion) -/

/-- The character for a single decimal digit `n < 10`. -/
def digitChar (n : Nat) : Char := Char.ofNat (48 + n)

/-- Decimal digits of `n`, most significant first; fuel-based so that the kernel
can evaluate it on large literals. -/
def natDigitsAux : Nat → Nat → List Char
  | 0, _ => []
  | fuel + 1, n =>
    if n < 10 then [digitChar n]
    else natDigitsAux fuel (n / 10) ++ [digitChar (n % 10)]

/-- Decimal rendering of a natural number (`"0"` for zero). -/
def natToString (n : Nat) : String := ⟨natDigitsAux (n + 1) n⟩

/-- Number of decimal digits of `n` (`1` for zero), i.e. the length of the
coefficient digit tuple of a Python `Decimal`. -/
def numDigits (n : Nat) : Nat := (natDigitsAux (n + 1) n).length

/-- Strip factors of ten: returns `(m, t)` with `n = m * 10^t` and
(for `n ≠ 0`) `10 ∤ m`; fuel-based. -/
def stripTensAux : Nat → Nat → Nat × Nat
  | 0, n => (n, 0)
  | fuel + 1, n =>
    if n ≠ 0 ∧ n % 10 = 0 then
      let (m, t) := stripTensAux fuel (n / 10)
      (m, t + 1)
    else (n, 0)

/-- Reduced coefficient and trailing-zero count of `n`. -/
def stripTens (n : Nat) : Nat × Nat := stripTensAux n n

/-! ## Python `decimal.Decimal`: finite values -/

/-- A finite Python `Decimal`: value is `± coeff · 10 ^ exp`, sign kept
separately so that negative zero is representable (as in CPython). -/
structure PyDecimal where
  neg : Bool
  coeff : Nat
  exp : Int
  deriving Repr, DecidableEq

/-- Round-half-even division `a / b` for `b > 0`: the integer nearest to the
exact quotient, ties to the even integer (Python's `ROUND_HALF_EVEN`). -/
def halfEvenDiv (a b : Nat) : Nat :=
  let q := a / b
  let r := a % b
  if 2 * r < b then q
  else if b < 2 * r then q + 1
  else if q % 2 = 0 then q else q + 1

/-! ## Parsing numeric strings (`Decimal(str)` and `int(str)`) -/

/-- Optional leading sign; returns (isNegative, rest). -/
def parseSign : List Char → Bool × List Char
  | '-' :: cs => (true, cs)
  | '+' :: cs => (false, cs)
  | cs => (false, cs)

/-- Split off a maximal run of leading ASCII digits. -/
def takeDigits : List Char → List Char × List Char
  | [] => ([], [])
  | c :: cs =>
    if c.isDigit then
      let (ds, rest) := takeDigits cs
      (c :: ds, rest)
    else ([], c :: cs)

/-- Value of a digit run (most significant first), accumulator style. -/
def digitsToNat (acc : Nat) : List Char → Nat
  | [] => acc
  | c :: cs => digitsToNat (acc * 10 + (c.toNat - 48)) cs

/-- Exponent suffix of a `Decimal` numeral: empty, or `e`/`E`, optional sign and
at least one digit, ending the string. -/
def parseExpPart : List Char → Option Int
  | [] => some 0
  | c :: cs =>
    if c = 'e' ∨ c = 'E' then
      let (eneg, cs') := parseSign cs
      let (ds, rest) := takeDigits cs'
      if ds = [] ∨ rest ≠ [] then none
      else some (if eneg then -(digitsToNat 0 ds : Int) else (digitsToNat 0 ds : Int))
    else none

/-- Model of `decimal.Decimal(s)` on plain finite numerals
`[sign] digits [. digits] [(e|E) [sign] digits]` (with at least one mantissa
digit); `none` models the `InvalidOperation` raised on anything else.
The coefficient and exponent follow `Decimal.as_tuple()`. -/
def parseDecimal (s : String) : Option PyDecimal :=
  let (neg, cs) := parseSign s.data
  let (ints, r1) := takeDigits cs
  let (fracs, r2) :=
    match r1 with
    | '.' :: cs' => takeDigits cs'
    | _ => ([], r1)
  if ints = [] ∧ fracs = [] then none
  else
    match parseExpPart r2 with
    | none => none
    | some e => some ⟨neg, digitsToNat 0 (ints ++ fracs), e - fracs.length⟩

/-- Model of Python `int(s)` on `[sign] digits` strings; `none` models the
`ValueError` raised on anything else. -/
def parsePyInt (s : String) : Option Int :=
  let (neg, cs) := parseSign s.data
  let (ds, rest) := takeDigits cs
  if ds = [] ∨ rest ≠ [] then none
  else some (if neg then -(digitsToNat 0 ds : Int) else (digitsToNat 0 ds : Int))

/-! ## `Decimal` context arithmetic (default context: precision 28, half-even)

The code divides only by `Decimal('1000000000000000000')` (the analyzer's
literal) and by `ETH_TO_WEI_MULTIPLIER` (same value, see below), i.e. by
decimals whose coefficient is a power of ten, so division is embedded for
exactly that divisor shape, following the General Decimal Arithmetic `divide`:
the result is the exact quotient when it fits in 28 significant digits and is
otherwise rounded half-even to 28 significant digits. -/

/-- The exponent `m` for a coefficient `10 ^ m` (the divisors used by the code). -/
def pow10Exponent (n : Nat) : Nat := numDigits n - 1

/-- Python `decimal` division `a / b` in the default context (precision 28,
`ROUND_HALF_EVEN`), for a divisor `b` whose coefficient is a power of ten. -/
def pyDivideByPow10 (a b : PyDecimal) : PyDecimal :=
  let shift : Int := b.exp + pow10Exponent b.coeff
  let rt := stripTens a.coeff
  let nd := numDigits rt.1
  let neg := a.neg != b.neg
  if nd ≤ 28 then ⟨neg, a.coeff, a.exp - shift⟩
  else
    let r := nd - 28
    ⟨neg, halfEvenDiv rt.1 (10 ^ r), a.exp + rt.2 - shift + r⟩

/-- Python `decimal` multiplication in the default context (precision 28,
`ROUND_HALF_EVEN`): exact product, rounded to 28 significant digits when it
has more (with the carry `10^28 → 10^27·10` renormalized, as in CPython). -/
def pyMul (a b : PyDecimal) : PyDecimal :=
  let p := a.coeff * b.coeff
  let e := a.exp + b.exp
  let neg := a.neg != b.neg
  let nd := numDigits p
  if nd ≤ 28 then ⟨neg, p, e⟩
  else
    let r := nd - 28
    let c := halfEvenDiv p (10 ^ r)
    if numDigits c ≤ 28 then ⟨neg, c, e + r⟩ else ⟨neg, c / 10, e + r + 1⟩

/-! ## Rendering -/

/-- Left-pad a digit string with zeros to width `w`. -/
def padZeros (w : Nat) (s : String) : String :=
  ⟨List.replicate (w - s.length) '0' ++ s.data⟩

/-- Python `str.rstrip('0')`. -/
def rstripZeros (s : String) : String :=
  ⟨(s.data.reverse.dropWhile (· = '0')).reverse⟩

/-- Python `str.rstrip('.')`. -/
def rstripDot (s : String) : String :=
  ⟨(s.data.reverse.dropWhile (· = '.')).reverse⟩

/-- Python `str(d)` for a finite `Decimal`: the General Decimal Arithmetic
*to-scientific-string* conversion used by CPython. -/
def toSciString (d : PyDecimal) : String :=
  let ds := natDigitsAux (d.coeff + 1) d.coeff
  let n : Int := ds.length
  let adjusted : Int := d.exp + n - 1
  let body :=
    if d.exp ≤ 0 ∧ -6 ≤ adjusted then
      if d.exp = 0 then (⟨ds⟩ : String)
      else if 0 ≤ adjusted then
        ⟨ds.take (n + d.exp).toNat⟩ ++ "." ++ ⟨ds.drop (n + d.exp).toNat⟩
      else
        "0." ++ ⟨List.replicate (-(adjusted + 1)).toNat '0'⟩ ++ ⟨ds⟩
    else
      let mant :=
        match ds with
        | [] => ""
        | [c] => (⟨[c]⟩ : String)
        | c :: rest => ⟨[c]⟩ ++ "." ++ ⟨rest⟩
      mant ++ "E" ++ (if 0 ≤ adjusted then "+" else "-") ++ natToString adjusted.natAbs
  (if d.neg then "-" else "") ++ body

/-- The integer `|value| * 10^18` rounded half-even to an integer, for value
`coeff · 10^exp` — the scaling step of formatting with `:.18f`. -/
def scaleTo18 (coeff : Nat) (exp : Int) : Nat :=
  if 0 ≤ exp + 18 then coeff * 10 ^ (exp + 18).toNat
  else halfEvenDiv coeff (10 ^ (-(exp + 18)).toNat)

/-- Given the scaled integer `n = |value|·10^18` (already rounded), produce
`f"{value:.18f}".rstrip('0').rstrip('.')`: digits with a point 18 places from
the right, trailing zeros then a trailing point stripped, sign prepended. -/
def renderScaled18 (neg : Bool) (n : Nat) : String :=
  let s := natToString (n / 10 ^ 18) ++ "." ++ padZeros 18 (natToString (n % 10 ^ 18))
  (if neg then "-" else "") ++ rstripDot (rstripZeros s)

/-- Model of `f"{d:.18f}".rstrip('0').rstrip('.')` for a finite `Decimal` `d`
(`Decimal.__format__` rounds half-even, unlimited by context precision). -/
def format18Stripped (d : PyDecimal) : String :=
  renderScaled18 d.neg (scaleTo18 d.coeff d.exp)

/-! ## `src/utils.py` -/

/-- Modelled from the spec: `ETH_TO_WEI_MULTIPLIER`, imported by
`src/utils.py` from a `constants` module that is not among the source files,
is `unitsPerWhole = 10^18` per §4.1 of the spec (and equals the analyzer's
literal `Decimal('1000000000000000000')`). -/
def ETH_TO_WEI_MULTIPLIER : PyDecimal := ⟨false, 10 ^ 18, 0⟩

/-- Model of `utils.convert_wei_to_eth`:
early `'0'` on empty or `'0'` input; otherwise `Decimal(wei) /
ETH_TO_WEI_MULTIPLIER` formatted `:.18f` with trailing zeros and point
stripped; `'0'` when parsing raises (`InvalidOperation`/`ValueError`). -/
def convert_wei_to_eth (wei_value : String) : String :=
  if wei_value = "" ∨ wei_value = "0" then "0"
  else
    match parseDecimal wei_value with
    | none => "0"
    | some d => format18Stripped (pyDivideByPow10 d ETH_TO_WEI_MULTIPLIER)

/-- Model of `utils.convert_timestamp`, parametrized by the platform's
`datetime.fromtimestamp(·).strftime('%Y-%m-%d %H:%M:%S')` (an external
collaborator; `none` models the `ValueError`/`OSError` the code catches). -/
def convert_timestamp (fromtsFmt : Int → Option String) (timestamp : String) : String :=
  if timestamp = "" then ""
  else
    match parsePyInt timestamp with
    | none => ""
    | some n =>
      match fromtsFmt n with
      | none => ""
      | some s => s

/-- Model of `utils.calculate_gas_fee`: `'0'` on an empty operand or a parse failure;
otherwise `Decimal(gas_used) * Decimal(gas_price)` (context arithmetic),
rendered by `str` and passed through `convert_wei_to_eth`. -/
def calculate_gas_fee (gas_used gas_price : String) : String :=
  if gas_used = "" ∨ gas_price = "" then "0"
  else
    match parseDecimal gas_used, parseDecimal gas_price with
    | some a, some b => convert_wei_to_eth (toSciString (pyMul a b))
    | _, _ => "0"

/-! ## `src/analyzer/transaction_analyzer.py`: the private duplicates -/

/-- Model of `EthereumTransactionAnalyzer._convert_wei_to_eth`: identical to
`utils.convert_wei_to_eth` except that the divisor is the in-line literal
`Decimal('1000000000000000000')`. -/
def analyzer_convert_wei_to_eth (wei_value : String) : String :=
  if wei_value = "" ∨ wei_value = "0" then "0"
  else
    match parseDecimal wei_value with
    | none => "0"
    | some d => format18Stripped (pyDivideByPow10 d ⟨false, 10 ^ 18, 0⟩)

/-- Model of `EthereumTransactionAnalyzer._convert_timestamp` (same text as
`utils.convert_timestamp`). -/
def analyzer_convert_timestamp (fromtsFmt : Int → Option String)
    (timestamp : String) : String :=
  if timestamp = "" then ""
  else
    match parsePyInt timestamp with
    | none => ""
    | some n =>
      match fromtsFmt n with
      | none => ""
      | some s => s

/-- Model of `EthereumTransactionAnalyzer._calculate_gas_fee` (same text as
`utils.calculate_gas_fee`, calling the analyzer's own Wei conversion). -/
def analyzer_calculate_gas_fee (gas_used gas_price : String) : String :=
  if gas_used = "" ∨ gas_price = "" then "0"
  else
    match parseDecimal gas_used, parseDecimal gas_price with
    | some a, some b => analyzer_convert_wei_to_eth (toSciString (pyMul a b))
    | _, _ => "0"

/-! ## `src/analyzer/transaction_analyzer.py`: normalizer and orchestrator -/

/-- A value of the dict `_process_transaction` returns: a string or a bool. -/
inductive PyVal where
  | str (s : String)
  | bool (b : Bool)
  deriving Repr, DecidableEq

/-- A raw transaction record: a JSON object of string fields, kept in
insertion order. -/
def RawTx : Type := List (String × String)

/-- Python `tx.get(key, default)`. -/
def rawGet (tx : RawTx) (key dflt : String) : String :=
  (List.lookup key tx).getD dflt

/-- The dict produced by `_process_transaction` (keys in source order),
parametrized like `convert_timestamp` by the platform datetime formatting. -/
def process_transaction (fromtsFmt : Int → Option String) (tx : RawTx)
    (transaction_type : String) : List (String × PyVal) :=
  [("transaction_hash", .str (rawGet tx "hash" "")),
   ("date_time", .str (analyzer_convert_timestamp fromtsFmt (rawGet tx "timeStamp" ""))),
   ("from_address", .str (rawGet tx "from" "")),
   ("to_address", .str (rawGet tx "to" "")),
   ("transaction_type", .str transaction_type),
   ("asset_contract_address", .str (rawGet tx "contractAddress" "")),
   ("asset_symbol_name", .str "ETH"),
   ("token_id", .str ""),
   ("value_amount", .str (analyzer_convert_wei_to_eth (rawGet tx "value" "0"))),
   ("gas_fee_eth", .str (analyzer_calculate_gas_fee (rawGet tx "gasUsed" "0")
      (rawGet tx "gasPrice" "0"))),
   ("block_number", .str (rawGet tx "blockNumber" "")),
   ("transaction_index", .str (rawGet tx "transactionIndex" "")),
   ("input_data", .str (rawGet tx "input" "")),
   ("is_error", .bool (rawGet tx "isError" "0" = "1"))]

/-- The class constant `EthereumTransactionAnalyzer.TRANSACTION_TYPES`, in source order. -/
def TRANSACTION_TYPES : List (String × String) :=
  [("normal", "ETH Transfer"),
   ("erc20", "ERC-20 Transfer"),
   ("erc721", "ERC-721 Transfer"),
   ("erc1155", "ERC-1155 Transfer"),
   ("internal", "Internal Transfer"),
   ("contract_interaction", "Contract Interaction")]

/-- The `analyze` loop with the per-record body abstracted: for each input
entry whose key is in `TRANSACTION_TYPES`, process each record with the
category's display label, appending successes and skipping failures (the
`try`/`except`-`continue`); entries under other keys contribute nothing. -/
def analyzeWith (process : RawTx → String → Option (List (String × PyVal)))
    (raw_transaction_data : List (String × List RawTx)) :
    List (List (String × PyVal)) :=
  raw_transaction_data.foldl
    (fun acc entry =>
      match List.lookup entry.1 TRANSACTION_TYPES with
      | none => acc
      | some label => acc ++ entry.2.filterMap (fun tx => process tx label))
    []

/-- Model of `EthereumTransactionAnalyzer.analyze`: the loop instantiated with
`_process_transaction` (which, in this model, always succeeds). -/
def analyze (fromtsFmt : Int → Option String)
    (raw_transaction_data : List (String × List RawTx)) :
    List (List (String × PyVal)) :=
  analyzeWith (fun tx label => some (process_transaction fromtsFmt tx label))
    raw_transaction_data

/-! ## `src/external_data_providers/etherscan_api_client.py`: pagination

`_get_transactions` is embedded over an abstract page source
`source : Int → List α` mapping the current `startblock` request parameter to
the decoded `result` list (the `page` parameter is the constant `1` in the
code, so `startblock` is the only varying request input), and an abstract
`blockNum : α → Option Int` for `int(record.get('blockNumber'))` (`none`
models the uncaught exception when the field is missing or non-numeric).
The loop gets explicit fuel since an adversarial source can make it run
forever; `none` models non-termination within the fuel, or an uncaught
exception; `some (records, pages)` returns the accumulated records and the
number of page fetches performed. -/
def getTransactionsLoop {α : Type} (source : Int → List α) (offset : Nat)
    (blockNum : α → Option Int) : Nat → Int → Option (List α × Nat)
  | 0, _ => none
  | fuel + 1, start_block =>
    let result := source start_block
    if result.length < offset then some (result, 1)
    else
      match result.getLast? with
      | none => none
      | some last =>
        match blockNum last with
        | none => none
        | some last_block_number =>
          if last_block_number = start_block then some (result, 1)
          else
            match getTransactionsLoop source offset blockNum fuel
                (last_block_number + 1) with
            | none => none
            | some (rest, pages) => some (result ++ rest, pages + 1)

/-- Model of `_get_transactions`: the loop started at `start_block = 0` (the code's
default `offset`, i.e. page size, is 10000). -/
def get_transactions {α : Type} (source : Int → List α) (offset : Nat)
    (blockNum : α → Option Int) (fuel : Nat) : Option (List α × Nat) :=
  getTransactionsLoop source offset blockNum fuel 0

/-! ## Spec-side reference definition -/

/-- Following the spec's words, for comparison with the code: the exact
rational `n / 10^18` of a base-unit integer `n`, rendered in plain decimal
notation with (at most) 18 fractional digits — which is always exact for an
integer numerator — then trailing zeros and a trailing decimal point
stripped, never scientific notation. -/
def specExactBaseUnitsToDecimal (n : Nat) : String :=
  renderScaled18 false n

/-! # Theorems -/

/-- Auxiliary: a `filterMap` keeps exactly the entries the function succeeds
on, so its length plus the failure count is the input length. -/
theorem length_filterMap_add_countP {α β : Type} (f : α → Option β)
    (l : List α) :
    (l.filterMap f).length + l.countP (fun a => (f a).isNone) = l.length := by
  induction l with
  | nil => simp
  | cons a l ih =>
    cases h : f a <;>
      simp [List.filterMap_cons, h, List.countP_cons, ← ih] <;> omega

/-- C1: for every page source, whenever the page fetched at the current
`startBlock` cursor contains exactly `pageSize` (`offset`) records and its
last record's block number equals that cursor, the pagination loop returns
after this single additional fetch (termination condition B) — with exactly
that page's records and a page count of `1` — for every remaining fuel, so
the loop cannot run forever when more than `pageSize` records share one
block. -/
theorem paginator_stalled_full_page_terminates {α : Type}
    (source : Int → List α) (offset : Nat) (blockNum : α → Option Int)
    (start_block : Int) (fuel : Nat) (last : α)
    (hlast : (source start_block).getLast? = some last)
    (hlen : (source start_block).length = offset)
    (hblock : blockNum last = some start_block) :
    getTransactionsLoop source offset blockNum (fuel + 1) start_block =
      some (source start_block, 1) := by
  simp [getTransactionsLoop, hlast, hlen, hblock]

/-- Witness for C1: a source whose page 1 has exactly `pageSize = 2` records,
the last with block number `0` = the initial `startBlock`; one page is
fetched and the loop ends, with plenty of fuel left. -/
theorem paginator_stalled_full_page_terminates_witness :
    ((fun _ => [(0 : Int), 0]) (0 : Int)).getLast? = some 0 ∧
    ((fun _ => [(0 : Int), 0]) (0 : Int)).length = 2 ∧
    getTransactionsLoop (fun _ => [(0 : Int), 0]) 2 (fun r => some r) (99 + 1) 0 =
      some ([(0 : Int), 0], 1) :=
  ⟨by decide, by decide,
    paginator_stalled_full_page_terminates (fun _ => [(0 : Int), 0]) 2
      (fun r => some r) 0 99 0 (by decide) (by decide) (by decide)⟩

/-- C2: for every page source that returns fewer than `pageSize` (`offset`)
records at the initial cursor, `_get_transactions` performs exactly one page
fetch and returns exactly that page's records in source order (termination
condition A). -/
theorem paginator_short_page_single_fetch {α : Type}
    (source : Int → List α) (offset : Nat) (blockNum : α → Option Int)
    (fuel : Nat) (hlen : (source 0).length < offset) :
    get_transactions source offset blockNum (fuel + 1) = some (source 0, 1) := by
  simp [get_transactions, getTransactionsLoop, hlen]

/-- Witness for C2: a source returning one record against the code's default
page size 10000: exactly one page is fetched and its single record returned. -/
theorem paginator_short_page_single_fetch_witness :
    ((fun _ => [(7 : Int)]) (0 : Int)).length < 10000 ∧
    get_transactions (fun _ => [(7 : Int)]) 10000 (fun r => some r) (0 + 1) =
      some ([(7 : Int)], 1) :=
  ⟨by decide,
    paginator_short_page_single_fetch (fun _ => [(7 : Int)]) 10000
      (fun r => some r) 0 (by decide)⟩

/-- C6: the listed input/output pairs of `baseUnitsToDecimal`
(`convert_wei_to_eth`), including the failure cases that return `"0"`
without raising to the caller. -/
theorem baseUnitsToDecimal_examples :
    convert_wei_to_eth "1000000000000000000" = "1" ∧
    convert_wei_to_eth "500000000000000000" = "0.5" ∧
    convert_wei_to_eth "1" = "0.000000000000000001" ∧
    convert_wei_to_eth "0" = "0" ∧
    convert_wei_to_eth "" = "0" ∧
    convert_wei_to_eth "not-a-number" = "0" :=
  ⟨rfl, rfl, rfl, rfl, rfl, rfl⟩

/-- C10: the three module-level conversion functions of `src/utils.py` are
extensionally equal to the analyzer's private duplicates, on every input
(and, for the timestamp pair, under every behavior of the platform datetime
collaborator they share). -/
theorem utils_equals_analyzer_duplicates :
    ∀ (fromtsFmt : Int → Option String) (w t u p : String),
      convert_wei_to_eth w = analyzer_convert_wei_to_eth w ∧
      convert_timestamp fromtsFmt t = analyzer_convert_timestamp fromtsFmt t ∧
      calculate_gas_fee u p = analyzer_calculate_gas_fee u p :=
  fun _ _ _ _ _ => ⟨rfl, rfl, rfl⟩

/-- C8: over one category's sequence, the orchestrator keeps exactly the
records the per-record normalization succeeds on, in source order; with
exactly one failing record among `N`, it yields exactly `N − 1` output
records (so never `N`), the failure being absorbed rather than aborting the
batch. -/
theorem analyze_isolates_single_failure
    (process : RawTx → String → Option (List (String × PyVal)))
    (category label : String) (txs : List RawTx)
    (hcat : List.lookup category TRANSACTION_TYPES = some label)
    (hone : txs.countP (fun tx => (process tx label).isNone) = 1) :
    analyzeWith process [(category, txs)] =
      txs.filterMap (fun tx => process tx label) ∧
    (analyzeWith process [(category, txs)]).length + 1 = txs.length ∧
    (analyzeWith process [(category, txs)]).length ≠ txs.length := by
  have h1 : analyzeWith process [(category, txs)] =
      txs.filterMap (fun tx => process tx label) := by
    simp [analyzeWith, hcat]
  have h2 : (analyzeWith process [(category, txs)]).length + 1 = txs.length := by
    rw [h1, ← hone]
    exact length_filterMap_add_countP _ _
  exact ⟨h1, h2, by omega⟩

/-- Witness for C8: three `normal` records of which exactly the middle one
fails to normalize; the run yields the two others, in order. -/
theorem analyze_isolates_single_failure_witness :
    List.lookup "normal" TRANSACTION_TYPES = some "ETH Transfer" ∧
    List.countP
      (fun tx => (if rawGet tx "hash" "" = "0xbad" then none
        else some [("transaction_hash", PyVal.str (rawGet tx "hash" ""))]).isNone)
      [[("hash", "0xa")], [("hash", "0xbad")], [("hash", "0xc")]] = 1 ∧
    analyzeWith
      (fun tx _ => if rawGet tx "hash" "" = "0xbad" then none
        else some [("transaction_hash", PyVal.str (rawGet tx "hash" ""))])
      [("normal", [[("hash", "0xa")], [("hash", "0xbad")], [("hash", "0xc")]])] =
      [[("transaction_hash", PyVal.str "0xa")],
       [("transaction_hash", PyVal.str "0xc")]] ∧
    (analyzeWith
      (fun tx _ => if rawGet tx "hash" "" = "0xbad" then none
        else some [("transaction_hash", PyVal.str (rawGet tx "hash" ""))])
      [("normal", [[("hash", "0xa")], [("hash", "0xbad")], [("hash", "0xc")]])]).length
      + 1 = 3 := by
  refine ⟨by decide, by decide, ?_, ?_⟩
  · have h := analyze_isolates_single_failure
      (fun tx _ => if rawGet tx "hash" "" = "0xbad" then none
        else some [("transaction_hash", PyVal.str (rawGet tx "hash" ""))])
      "normal" "ETH Transfer"
      [[("hash", "0xa")], [("hash", "0xbad")], [("hash", "0xc")]]
      (by decide) (by decide)
    exact h.1.trans (by decide)
  · have h := analyze_isolates_single_failure
      (fun tx _ => if rawGet tx "hash" "" = "0xbad" then none
        else some [("transaction_hash", PyVal.str (rawGet tx "hash" ""))])
      "normal" "ETH Transfer"
      [[("hash", "0xa")], [("hash", "0xbad")], [("hash", "0xc")]]
      (by decide) (by decide)
    exact h.2.1

/-- C3 (code bug, claim per spec and the repository's own tests): the record
the normalizer produces — here for an ERC-20 raw record carrying `tokenName`,
`gas`, `gasPrice` and `gasUsed` — consists of exactly the fourteen keys of
`_process_transaction`, and contains no `asset_name`, `gas`, `gas_price` or
`gas_used` field at all, contrary to the claimed unified data model. -/
theorem process_transaction_lacks_claimed_fields :
    (process_transaction (fun _ => none)
        [("hash", "0xh"), ("tokenName", "USD Coin"), ("tokenSymbol", "USDC"),
         ("gas", "65000"), ("gasPrice", "15000000000"), ("gasUsed", "45000")]
        "ERC-20 Transfer").map Prod.fst =
      ["transaction_hash", "date_time", "from_address", "to_address",
       "transaction_type", "asset_contract_address", "asset_symbol_name",
       "token_id", "value_amount", "gas_fee_eth", "block_number",
       "transaction_index", "input_data", "is_error"] ∧
    "asset_name" ∉ (process_transaction (fun _ => none)
        [("hash", "0xh"), ("tokenName", "USD Coin"), ("tokenSymbol", "USDC"),
         ("gas", "65000"), ("gasPrice", "15000000000"), ("gasUsed", "45000")]
        "ERC-20 Transfer").map Prod.fst ∧
    "gas" ∉ (process_transaction (fun _ => none)
        [("hash", "0xh"), ("tokenName", "USD Coin"), ("tokenSymbol", "USDC"),
         ("gas", "65000"), ("gasPrice", "15000000000"), ("gasUsed", "45000")]
        "ERC-20 Transfer").map Prod.fst ∧
    "gas_price" ∉ (process_transaction (fun _ => none)
        [("hash", "0xh"), ("tokenName", "USD Coin"), ("tokenSymbol", "USDC"),
         ("gas", "65000"), ("gasPrice", "15000000000"), ("gasUsed", "45000")]
        "ERC-20 Transfer").map Prod.fst ∧
    "gas_used" ∉ (process_transaction (fun _ => none)
        [("hash", "0xh"), ("tokenName", "USD Coin"), ("tokenSymbol", "USDC"),
         ("gas", "65000"), ("gasPrice", "15000000000"), ("gasUsed", "45000")]
        "ERC-20 Transfer").map Prod.fst := by
  refine ⟨by decide, ?_, ?_, ?_, ?_⟩ <;> decide

/-- C4 (code bug, claim per spec and the repository's own tests): for an
ERC-20 raw record with `tokenSymbol = "USDC"` normalized under the
`"ERC-20 Transfer"` label, the produced asset symbol field is the literal
`"ETH"`, not `"USDC"`. -/
theorem process_transaction_erc20_symbol_is_eth :
    List.lookup "asset_symbol_name"
        (process_transaction (fun _ => none)
          [("hash", "0xh"), ("tokenSymbol", "USDC")] "ERC-20 Transfer") =
      some (PyVal.str "ETH") ∧
    List.lookup "asset_symbol_name"
        (process_transaction (fun _ => none)
          [("hash", "0xh"), ("tokenSymbol", "USDC")] "ERC-20 Transfer") ≠
      some (PyVal.str "USDC") := by
  exact ⟨by decide, by decide⟩

/-- C9 (code bug, claim per spec and the repository's own tests): records
stored under the key `contract_interaction` — outside the five known
category keys — are not ignored: `TRANSACTION_TYPES` has that sixth entry,
so `analyze` normalizes such a record and yields one output. -/
theorem analyze_processes_contract_interaction :
    List.lookup "contract_interaction" TRANSACTION_TYPES =
      some "Contract Interaction" ∧
    (analyze (fun _ => none)
        [("contract_interaction", [[("hash", "0xdead")]])]).length = 1 := by
  exact ⟨by decide, by decide⟩

/-- C5 counterexample: on a 29-significant-digit integer input the `Decimal`
division runs at the default context precision of 28 significant digits and
rounds (half-even), so the output is not the exact rational quotient the
claim demands: the exact rendering ends in `…456789`, the code's in `…679`. -/
theorem baseUnitsToDecimal_inexact_beyond_precision :
    convert_wei_to_eth "12345678901234567890123456789" =
      "12345678901.23456789012345679" ∧
    specExactBaseUnitsToDecimal 12345678901234567890123456789 =
      "12345678901.234567890123456789" ∧
    convert_wei_to_eth "12345678901234567890123456789" ≠
      specExactBaseUnitsToDecimal 12345678901234567890123456789 :=
  ⟨rfl, rfl, by decide⟩

/-- C5 amended: for every input string that parses as an optionally-signed
plain integer numeral (exponent 0), non-negative, whose coefficient has at
most 28 significant digits (trailing zeros not counted), `convert_wei_to_eth`
returns exactly the rational quotient input / 10^18 rendered in plain decimal
notation with up to 18 fractional digits, trailing zeros and any trailing
decimal point stripped, never in scientific notation. -/
theorem baseUnitsToDecimal_exact_within_precision
    (s : String) (d : PyDecimal)
    (hp : parseDecimal s = some d) (hneg : d.neg = false) (hexp : d.exp = 0)
    (hdig : numDigits (stripTens d.coeff).1 ≤ 28) :
    convert_wei_to_eth s = specExactBaseUnitsToDecimal d.coeff := by
  rcases eq_or_ne s "" with h0 | h0
  · subst h0
    have hnone : parseDecimal "" = none := rfl
    rw [hnone] at hp
    cases hp
  rcases eq_or_ne s "0" with h1 | h1
  · subst h1
    have hz : (⟨false, 0, 0⟩ : PyDecimal) = d :=
      Option.some.inj ((show parseDecimal "0" = some ⟨false, 0, 0⟩ from rfl).symm.trans hp)
    rw [← hz]
    rfl
  · have hcw : convert_wei_to_eth s =
        format18Stripped (pyDivideByPow10 d ETH_TO_WEI_MULTIPLIER) := by
      unfold convert_wei_to_eth
      rw [if_neg (by simp [h0, h1]), hp]
    have hdiv : pyDivideByPow10 d ETH_TO_WEI_MULTIPLIER =
        ⟨false, d.coeff, -18⟩ := by
      simp only [pyDivideByPow10, ETH_TO_WEI_MULTIPLIER]
      rw [if_pos hdig]
      have h18 : pow10Exponent 1000000000000000000 = 18 := rfl
      simp [hneg, hexp, h18]
    rw [hcw, hdiv]
    unfold format18Stripped specExactBaseUnitsToDecimal
    norm_num [scaleTo18]

/-- Witness for the amended C5: a 2-ETH integer amount, 19 digits but a
single significant digit, converts exactly. -/
theorem baseUnitsToDecimal_exact_within_precision_witness :
    parseDecimal "2000000000000000000" = some ⟨false, 2 * 10 ^ 18, 0⟩ ∧
    numDigits (stripTens (2 * 10 ^ 18)).1 ≤ 28 ∧
    convert_wei_to_eth "2000000000000000000" =
      specExactBaseUnitsToDecimal (2 * 10 ^ 18) :=
  ⟨by decide, by decide,
    baseUnitsToDecimal_exact_within_precision "2000000000000000000"
      ⟨false, 2 * 10 ^ 18, 0⟩ (by decide) rfl rfl (by decide)⟩
